import Mathlib

/-!
Shallow embedding of `src/ConsoleLocaleTimestamp.ts` from the
`console-locale-timestamp` package.

The class `ConsoleLocaleTimestamp` wraps the WHATWG console: each wrapper
method first writes a locale-formatted timestamp fragment to `process.stdout`
or `process.stderr` (chosen by log level) and then delegates to the
corresponding `console` primitive with the original arguments.

Modelling choices:
* JavaScript runtime values reaching the constructor are modelled by
  `JSValue`; an omitted optional parameter is `JSValue.undef`, matching the
  `x !== undefined` guards of the source.
* `Object.prototype.toString.call(x)` is modelled by `JSValue.jsTypeTag`.
* `Date.prototype.toLocaleTimeString(locales, options)` evaluated at the
  current instant is an uninterpreted parameter `fmt : TimeFormatter`
  supplied to each method; the embedding applies it to the stored `locales`
  and `options` fields exactly as line 76 of the source does.
* Observable behaviour of a method call is a trace of `Event`s: stream
  writes (`process.stdout.write` / `process.stderr.write`) and delegations
  to the underlying console (`console.xxx(...)`), in program order.
  Thrown exceptions are `Except.error` over `JSError`.
-/

/-- a JavaScript runtime value, as far as the validation logic of the
constructor can distinguish values. -/
inductive JSValue where
  | undef
  | nullVal
  | boolVal (b : Bool)
  | numVal (n : Int)
  | str (s : String)
  | arr (elems : List JSValue)
  | obj (fields : List (String × JSValue))

/-- result of `Object.prototype.toString.call(v)`. -/
def JSValue.jsTypeTag : JSValue → String
  | .undef => "[object Undefined]"
  | .nullVal => "[object Null]"
  | .boolVal _ => "[object Boolean]"
  | .numVal _ => "[object Number]"
  | .str _ => "[object String]"
  | .arr _ => "[object Array]"
  | .obj _ => "[object Object]"

/-- whether the value is `undefined` (an omitted optional argument). -/
def JSValue.isUndef : JSValue → Bool
  | .undef => true
  | _ => false

/-- whether the value is a primitive string. -/
def JSValue.isStr : JSValue → Bool
  | .str _ => true
  | _ => false

/-- whether the value is a plain object. -/
def JSValue.isObj : JSValue → Bool
  | .obj _ => true
  | _ => false

/-- whether the value is an array. -/
def JSValue.isArr : JSValue → Bool
  | .arr _ => true
  | _ => false

/-- the underlying string of a string value (only used after validation). -/
def JSValue.asString : JSValue → String
  | .str s => s
  | _ => ""

/-- the element list of an array value (`[]` for non-arrays). -/
def JSValue.elems : JSValue → List JSValue
  | .arr es => es
  | _ => []

/-- `v.length` for an array value. -/
def JSValue.jsLength (v : JSValue) : Nat :=
  v.elems.length

/-- `v[i]` for an array value (`undefined` out of range). -/
def JSValue.elemAt (v : JSValue) (i : Nat) : JSValue :=
  v.elems.getD i JSValue.undef

/-- JavaScript truthiness, as used by `if (!condition)` in `assert`. -/
def JSValue.truthy : JSValue → Bool
  | .undef => false
  | .nullVal => false
  | .boolVal b => b
  | .numVal n => n != 0
  | .str s => s != ""
  | .arr _ => true
  | .obj _ => true

/-- an exception thrown by the wrapper: `TypeError`, `RangeError`, or a
plain `Error` (the internal severity-router failure). -/
inductive JSError where
  | typeError (msg : String)
  | rangeError (msg : String)
  | error (msg : String)

/-- whether an exception is one of the construction-time validation kinds
(`TypeError` / `RangeError`), the spec's `InvalidArgument`. -/
def JSError.isInvalidArgument : JSError → Bool
  | .typeError _ => true
  | .rangeError _ => true
  | .error _ => false

/-- the two output destinations used by the severity router. -/
inductive OutStream where
  | stdout
  | stderr

/-- an observable step of a wrapper method: a raw stream write of the
timestamp fragment, or a delegation to an underlying console operation
with its argument list. -/
inductive Event where
  | write (s : OutStream) (text : String)
  | call (name : String) (args : List JSValue)

/-- whether an event is a stream write (a timestamp fragment emission). -/
def Event.isWrite : Event → Bool
  | .write _ _ => true
  | _ => false

/-- `Date.prototype.toLocaleTimeString` at the current instant, taking the
locales argument and the options argument; uninterpreted host facility. -/
def TimeFormatter : Type :=
  Option String → Option JSValue → String

/-- the immutable configuration held by a constructed
`ConsoleLocaleTimestamp` instance (its five private fields). -/
structure ConsoleLocaleTimestamp where
  locales : Option String := none
  options : Option JSValue := none
  openQuote : String := ""
  closeQuote : String := ""
  separator : String := " "

namespace ConsoleLocaleTimestamp

/-- the private `#LOG_LEVEL` record: runtime values of the four tags. -/
def LOG_LEVEL_log : String := "log"

/-- the `info` tag of the private `#LOG_LEVEL` record. -/
def LOG_LEVEL_info : String := "info"

/-- the `warn` tag of the private `#LOG_LEVEL` record. -/
def LOG_LEVEL_warn : String := "warn"

/-- the `error` tag of the private `#LOG_LEVEL` record. -/
def LOG_LEVEL_error : String := "error"

/-- validation of the `locales` constructor argument (lines 31–37). -/
def validateLocales (locales : JSValue) : Except JSError (Option String) :=
  if !locales.isUndef then
    if locales.jsTypeTag != "[object String]" then
      Except.error (JSError.typeError "The argument `locales` must be an String.")
    else
      Except.ok (some locales.asString)
  else
    Except.ok none

/-- validation of the `options` constructor argument (lines 39–45). -/
def validateOptions (options : JSValue) : Except JSError (Option JSValue) :=
  if !options.isUndef then
    if options.jsTypeTag != "[object Object]" then
      Except.error (JSError.typeError "The argument `options` must be an Object.")
    else
      Except.ok (some options)
  else
    Except.ok none

/-- validation of the `quote` constructor argument (lines 47–58), returning
the `(openQuote, closeQuote)` pair it assigns. -/
def validateQuote (quote : JSValue) : Except JSError (String × String) :=
  if !quote.isUndef then
    if quote.jsTypeTag != "[object Array]" then
      Except.error (JSError.typeError "The argument `quote` must be an Array.")
    else if quote.jsLength < 1 || quote.jsLength > 2 then
      Except.error (JSError.rangeError "The argument `quote` must be an Array of length 1 or 2.")
    else if !(quote.elems.all fun val => val.jsTypeTag == "[object String]") then
      Except.error (JSError.typeError "The contents of the Array of arguments `quote` must be a String.")
    else
      Except.ok ((quote.elemAt 0).asString,
        if quote.jsLength == 1 then (quote.elemAt 0).asString else (quote.elemAt 1).asString)
  else
    Except.ok ("", "")

/-- validation of the `separator` constructor argument (lines 60–66). -/
def validateSeparator (separator : JSValue) : Except JSError String :=
  if !separator.isUndef then
    if separator.jsTypeTag != "[object String]" then
      Except.error (JSError.typeError "The argument `separator` must be an String.")
    else
      Except.ok separator.asString
  else
    Except.ok " "

/-- the constructor (lines 30–67): validates the four optional arguments in
order, throwing on the first violation, and otherwise produces the
immutable configuration. No output event is possible at construction:
the result type carries no trace. -/
def construct (locales options quote separator : JSValue) :
    Except JSError ConsoleLocaleTimestamp := do
  let localesField ← validateLocales locales
  let optionsField ← validateOptions options
  let quotes ← validateQuote quote
  let separatorField ← validateSeparator separator
  pure { locales := localesField, options := optionsField,
         openQuote := quotes.1, closeQuote := quotes.2,
         separator := separatorField }

/-- the private `_printTimestamp` (lines 75–95): builds the timestamp
fragment and routes it by the `logLevel` tag, throwing the internal
`Error` on an unknown tag. -/
def _printTimestamp (c : ConsoleLocaleTimestamp) (fmt : TimeFormatter)
    (logLevel : String) (separator : String) : Except JSError (List Event) :=
  let timestamp := c.openQuote ++ fmt c.locales c.options ++ c.closeQuote ++ separator
  if logLevel == LOG_LEVEL_log || logLevel == LOG_LEVEL_info || logLevel == LOG_LEVEL_warn then
    Except.ok [Event.write OutStream.stdout timestamp]
  else if logLevel == LOG_LEVEL_error then
    Except.ok [Event.write OutStream.stderr timestamp]
  else
    Except.error (JSError.error "An undefined `logLevel` was specified as an argument. `logLevel` must be one of the groups defined below. <https://console.spec.whatwg.org/#loglevel-severity>")

/-- the private `_printlnTimestamp` (lines 102–104): the line-terminated
variant, forcing a newline separator. -/
def _printlnTimestamp (c : ConsoleLocaleTimestamp) (fmt : TimeFormatter)
    (logLevel : String) : Except JSError (List Event) :=
  c._printTimestamp fmt logLevel "\n"

/-- wrapper of `console.assert()` (lines 114–119). -/
def assert (c : ConsoleLocaleTimestamp) (fmt : TimeFormatter)
    (condition : JSValue) (data : List JSValue) : Except JSError (List Event) := do
  let w ← if !condition.truthy then c._printTimestamp fmt LOG_LEVEL_error c.separator
    else pure []
  pure (w ++ [Event.call "assert" (condition :: data)])

/-- wrapper of `console.clear()` (lines 126–128). -/
def clear (_c : ConsoleLocaleTimestamp) (_fmt : TimeFormatter) :
    Except JSError (List Event) :=
  Except.ok [Event.call "clear" []]

/-- wrapper of `console.debug()` (lines 137–140). -/
def debug (c : ConsoleLocaleTimestamp) (fmt : TimeFormatter)
    (data : List JSValue) : Except JSError (List Event) := do
  let w ← c._printTimestamp fmt LOG_LEVEL_log c.separator
  pure (w ++ [Event.call "debug" data])

/-- wrapper of `console.error()` (lines 149–152). -/
def error (c : ConsoleLocaleTimestamp) (fmt : TimeFormatter)
    (data : List JSValue) : Except JSError (List Event) := do
  let w ← c._printTimestamp fmt LOG_LEVEL_error c.separator
  pure (w ++ [Event.call "error" data])

/-- wrapper of `console.info()` (lines 161–164). -/
def info (c : ConsoleLocaleTimestamp) (fmt : TimeFormatter)
    (data : List JSValue) : Except JSError (List Event) := do
  let w ← c._printTimestamp fmt LOG_LEVEL_info c.separator
  pure (w ++ [Event.call "info" data])

/-- wrapper of `console.log()` (lines 173–176). -/
def log (c : ConsoleLocaleTimestamp) (fmt : TimeFormatter)
    (data : List JSValue) : Except JSError (List Event) := do
  let w ← c._printTimestamp fmt LOG_LEVEL_log c.separator
  pure (w ++ [Event.call "log" data])

/-- wrapper of `console.table()` (lines 186–189). -/
def table (c : ConsoleLocaleTimestamp) (fmt : TimeFormatter)
    (tabularData properties : JSValue) : Except JSError (List Event) := do
  let w ← c._printlnTimestamp fmt LOG_LEVEL_log
  pure (w ++ [Event.call "table" [tabularData, properties]])

/-- wrapper of `console.trace()` (lines 198–201). -/
def trace (c : ConsoleLocaleTimestamp) (fmt : TimeFormatter)
    (data : List JSValue) : Except JSError (List Event) := do
  let w ← c._printTimestamp fmt LOG_LEVEL_log c.separator
  pure (w ++ [Event.call "trace" data])

/-- wrapper of `console.warn()` (lines 210–213). -/
def warn (c : ConsoleLocaleTimestamp) (fmt : TimeFormatter)
    (data : List JSValue) : Except JSError (List Event) := do
  let w ← c._printTimestamp fmt LOG_LEVEL_warn c.separator
  pure (w ++ [Event.call "warn" data])

/-- wrapper of `console.dir()` (lines 223–226). -/
def dir (c : ConsoleLocaleTimestamp) (fmt : TimeFormatter)
    (item options' : JSValue) : Except JSError (List Event) := do
  let w ← c._printTimestamp fmt LOG_LEVEL_log c.separator
  pure (w ++ [Event.call "dir" [item, options']])

/-- wrapper of `console.dirxml()` (lines 235–238). -/
def dirxml (c : ConsoleLocaleTimestamp) (fmt : TimeFormatter)
    (data : List JSValue) : Except JSError (List Event) := do
  let w ← c._printTimestamp fmt LOG_LEVEL_log c.separator
  pure (w ++ [Event.call "dirxml" data])

/-- wrapper of `console.count()` (lines 247–250). -/
def count (c : ConsoleLocaleTimestamp) (fmt : TimeFormatter)
    (label : JSValue) : Except JSError (List Event) := do
  let w ← c._printTimestamp fmt LOG_LEVEL_info c.separator
  pure (w ++ [Event.call "count" [label]])

/-- wrapper of `console.countReset()` (lines 259–261). -/
def countReset (_c : ConsoleLocaleTimestamp) (_fmt : TimeFormatter)
    (label : JSValue) : Except JSError (List Event) :=
  Except.ok [Event.call "countReset" [label]]

/-- wrapper of `console.group()` (lines 270–275). -/
def group (c : ConsoleLocaleTimestamp) (fmt : TimeFormatter)
    (label : List JSValue) : Except JSError (List Event) := do
  let w ← if label.length > 0 then c._printTimestamp fmt LOG_LEVEL_log c.separator
    else pure []
  pure (w ++ [Event.call "group" label])

/-- wrapper of `console.groupCollapsed()` (lines 284–289). -/
def groupCollapsed (c : ConsoleLocaleTimestamp) (fmt : TimeFormatter)
    (label : List JSValue) : Except JSError (List Event) := do
  let w ← if label.length > 0 then c._printTimestamp fmt LOG_LEVEL_log c.separator
    else pure []
  pure (w ++ [Event.call "groupCollapsed" label])

/-- wrapper of `console.groupEnd()` (lines 296–298). -/
def groupEnd (_c : ConsoleLocaleTimestamp) (_fmt : TimeFormatter) :
    Except JSError (List Event) :=
  Except.ok [Event.call "groupEnd" []]

/-- wrapper of `console.time()` (lines 307–309). -/
def time (_c : ConsoleLocaleTimestamp) (_fmt : TimeFormatter)
    (label : JSValue) : Except JSError (List Event) :=
  Except.ok [Event.call "time" [label]]

/-- wrapper of `console.timeLog()` (lines 319–322). -/
def timeLog (c : ConsoleLocaleTimestamp) (fmt : TimeFormatter)
    (label : JSValue) (data : List JSValue) : Except JSError (List Event) := do
  let w ← c._printTimestamp fmt LOG_LEVEL_log c.separator
  pure (w ++ [Event.call "timeLog" (label :: data)])

/-- wrapper of `console.timeEnd()` (lines 331–334). -/
def timeEnd (c : ConsoleLocaleTimestamp) (fmt : TimeFormatter)
    (label : JSValue) : Except JSError (List Event) := do
  let w ← c._printTimestamp fmt LOG_LEVEL_info c.separator
  pure (w ++ [Event.call "timeEnd" [label]])

end ConsoleLocaleTimestamp

/-! ## Spec-side definitions (statement vocabulary) -/

/-- the closed set of severity tags of §4.3 of the spec (the `LogLevel`
type of line 1 of the source). -/
inductive LogLevel where
  | log
  | info
  | warn
  | error

/-- the runtime string carried by each severity tag (the `#LOG_LEVEL`
record values). -/
def LogLevel.tag : LogLevel → String
  | .log => ConsoleLocaleTimestamp.LOG_LEVEL_log
  | .info => ConsoleLocaleTimestamp.LOG_LEVEL_info
  | .warn => ConsoleLocaleTimestamp.LOG_LEVEL_warn
  | .error => ConsoleLocaleTimestamp.LOG_LEVEL_error

/-- the routing table of §4.3 of the spec: `log`, `info`, `warn` go to the
standard output stream and `error` to the standard error stream. -/
def LogLevel.routedStream : LogLevel → OutStream
  | .error => OutStream.stderr
  | _ => OutStream.stdout

/-- whether a computation succeeded (did not throw). -/
def exceptOk {α : Type} : Except JSError α → Bool
  | .ok _ => true
  | .error _ => false

/-- whether a computation either succeeded or threw an
`InvalidArgument`-kind exception (`TypeError` / `RangeError`). -/
def throwsOnlyInvalidArgument {α : Type} : Except JSError α → Bool
  | .ok _ => true
  | .error e => e.isInvalidArgument

/-- shape requirement of §4.1 on the `locales` input: omitted or textual. -/
def validLocalesInput (v : JSValue) : Bool :=
  v.isUndef || v.isStr

/-- shape requirement of §4.1 on the `options` input: omitted or a plain
key/value object. -/
def validOptionsInput (v : JSValue) : Bool :=
  v.isUndef || v.isObj

/-- shape requirement of §4.1 on the `quote` input: omitted, or a sequence
of length 1 or 2 whose elements are all textual. -/
def validQuoteInput (v : JSValue) : Bool :=
  v.isUndef ||
    (v.isArr && decide (1 ≤ v.jsLength) && decide (v.jsLength ≤ 2) &&
      v.elems.all JSValue.isStr)

/-- shape requirement of §4.1 on the `separator` input: omitted or textual. -/
def validSeparatorInput (v : JSValue) : Bool :=
  v.isUndef || v.isStr

/-- conjunction of the four shape requirements of §4.1. -/
def validConstructorInputs (locales options quote separator : JSValue) : Bool :=
  validLocalesInput locales && validOptionsInput options &&
    validQuoteInput quote && validSeparatorInput separator

/-- a default-configured instance (all four constructor arguments omitted),
used to evaluate concrete traces. -/
def cfgDefault : ConsoleLocaleTimestamp := {}

/-- a fixed outcome of the host time formatter, standing for one concrete
current instant. -/
def fmtFixed : TimeFormatter := fun _ _ => "0:00:00"

/-! ## Helper lemmas -/

namespace ConsoleLocaleTimestamp

theorem strTag_check_eq_isStr :
    (fun val : JSValue => val.jsTypeTag == "[object String]") = JSValue.isStr := by
  funext v
  cases v <;> rfl

theorem validateLocales_ok (v : JSValue) :
    exceptOk (validateLocales v) = validLocalesInput v := by
  cases v <;> rfl

theorem validateOptions_ok (v : JSValue) :
    exceptOk (validateOptions v) = validOptionsInput v := by
  cases v <;> rfl

theorem validateQuote_ok (v : JSValue) :
    exceptOk (validateQuote v) = validQuoteInput v := by
  cases v with
  | arr es =>
    unfold validateQuote
    rw [strTag_check_eq_isStr]
    by_cases hlen : 1 ≤ es.length ∧ es.length ≤ 2
    · have hcond : (decide (es.length < 1) || decide (es.length > 2)) = false := by
        simp only [Bool.or_eq_false_iff, decide_eq_false_iff_not, Nat.not_lt]
        omega
      cases hall : es.all JSValue.isStr with
      | true =>
        simp [validQuoteInput, JSValue.isUndef, JSValue.isArr,
          JSValue.jsTypeTag, JSValue.jsLength, JSValue.elems, exceptOk,
          hcond, hall, hlen.1, hlen.2]
      | false =>
        simp [validQuoteInput, JSValue.isUndef, JSValue.isArr,
          JSValue.jsTypeTag, JSValue.jsLength, JSValue.elems, exceptOk,
          hcond, hall]
    · have hcond : (decide (es.length < 1) || decide (es.length > 2)) = true := by
        simp only [Bool.or_eq_true, decide_eq_true_eq]
        omega
      have hd : decide (1 ≤ es.length) = false ∨ decide (es.length ≤ 2) = false := by
        by_cases h : 1 ≤ es.length
        · right
          simp only [decide_eq_false_iff_not, Nat.not_le]
          omega
        · left
          simp only [decide_eq_false_iff_not]
          omega
      rcases hd with h | h <;>
        simp [validQuoteInput, JSValue.isUndef, JSValue.isArr,
          JSValue.jsTypeTag, JSValue.jsLength, JSValue.elems, exceptOk, hcond, h]
  | undef => rfl
  | nullVal => rfl
  | boolVal b => rfl
  | numVal n => rfl
  | str s => rfl
  | obj fields => rfl

theorem validateSeparator_ok (v : JSValue) :
    exceptOk (validateSeparator v) = validSeparatorInput v := by
  cases v <;> rfl

theorem validateLocales_invalidArg (v : JSValue) :
    throwsOnlyInvalidArgument (validateLocales v) = true := by
  unfold validateLocales
  split_ifs <;> rfl

theorem validateOptions_invalidArg (v : JSValue) :
    throwsOnlyInvalidArgument (validateOptions v) = true := by
  unfold validateOptions
  split_ifs <;> rfl

theorem validateQuote_invalidArg (v : JSValue) :
    throwsOnlyInvalidArgument (validateQuote v) = true := by
  unfold validateQuote
  split_ifs <;> rfl

theorem validateSeparator_invalidArg (v : JSValue) :
    throwsOnlyInvalidArgument (validateSeparator v) = true := by
  unfold validateSeparator
  split_ifs <;> rfl

theorem construct_ok (l o q s : JSValue) :
    exceptOk (construct l o q s) =
      (exceptOk (validateLocales l) && exceptOk (validateOptions o) &&
        exceptOk (validateQuote q) && exceptOk (validateSeparator s)) := by
  unfold construct
  cases hl : validateLocales l <;> cases ho : validateOptions o <;>
    cases hq : validateQuote q <;> cases hs : validateSeparator s <;>
    simp [exceptOk, bind, Except.bind, pure, Except.pure]

theorem construct_invalidArg (l o q s : JSValue) :
    throwsOnlyInvalidArgument (construct l o q s) = true := by
  unfold construct
  cases hl : validateLocales l with
  | error e =>
    have h := validateLocales_invalidArg l
    rw [hl] at h
    simpa [bind, Except.bind, throwsOnlyInvalidArgument] using h
  | ok lf =>
    cases ho : validateOptions o with
    | error e =>
      have h := validateOptions_invalidArg o
      rw [ho] at h
      simpa [bind, Except.bind, throwsOnlyInvalidArgument] using h
    | ok optf =>
      cases hq : validateQuote q with
      | error e =>
        have h := validateQuote_invalidArg q
        rw [hq] at h
        simpa [bind, Except.bind, throwsOnlyInvalidArgument] using h
      | ok qf =>
        cases hs : validateSeparator s with
        | error e =>
          have h := validateSeparator_invalidArg s
          rw [hs] at h
          simpa [bind, Except.bind, throwsOnlyInvalidArgument] using h
        | ok sf =>
          simp [bind, Except.bind, throwsOnlyInvalidArgument, pure, Except.pure]

end ConsoleLocaleTimestamp

theorem exceptOk_exists {α : Type} {x : Except JSError α} (h : exceptOk x = true) :
    ∃ r, x = Except.ok r := by
  cases x with
  | ok r => exact ⟨r, rfl⟩
  | error e => exact absurd h (by simp [exceptOk])

/-! ## Claim theorems -/

/-- Claim C1: for every constructed instance and every timestamp emission,
the severity tags `log`, `info` and `warn` route the timestamp fragment to
the standard output stream and `error` routes it to the standard error
stream; and in each severity-tagged wrapper the stream write precedes the
delegation to the underlying console operation. -/
theorem C1_severity_stream_routing :
    ∀ (c : ConsoleLocaleTimestamp) (fmt : TimeFormatter) (sep : String),
      (∀ lvl : LogLevel,
        c._printTimestamp fmt lvl.tag sep =
          Except.ok [Event.write lvl.routedStream
            (c.openQuote ++ fmt c.locales c.options ++ c.closeQuote ++ sep)]) ∧
      (∀ data : List JSValue,
        c.log fmt data =
          Except.ok [Event.write OutStream.stdout
              (c.openQuote ++ fmt c.locales c.options ++ c.closeQuote ++ c.separator),
            Event.call "log" data]) ∧
      (∀ data : List JSValue,
        c.info fmt data =
          Except.ok [Event.write OutStream.stdout
              (c.openQuote ++ fmt c.locales c.options ++ c.closeQuote ++ c.separator),
            Event.call "info" data]) ∧
      (∀ data : List JSValue,
        c.warn fmt data =
          Except.ok [Event.write OutStream.stdout
              (c.openQuote ++ fmt c.locales c.options ++ c.closeQuote ++ c.separator),
            Event.call "warn" data]) ∧
      (∀ data : List JSValue,
        c.error fmt data =
          Except.ok [Event.write OutStream.stderr
              (c.openQuote ++ fmt c.locales c.options ++ c.closeQuote ++ c.separator),
            Event.call "error" data]) :=
  fun _ _ _ =>
    ⟨fun lvl => by cases lvl <;> rfl,
     fun _ => rfl, fun _ => rfl, fun _ => rfl, fun _ => rfl⟩

/-- Claim C2: every emitted timestamp fragment is exactly the concatenation
of the open quote, the locale-formatted current time (the host formatter
applied to the stored locales and options unchanged), the close quote and
the separator. -/
theorem C2_timestamp_fragment_shape :
    ∀ (c : ConsoleLocaleTimestamp) (fmt : TimeFormatter) (sep : String) (lvl : LogLevel),
      ∃ strm : OutStream,
        c._printTimestamp fmt lvl.tag sep =
          Except.ok [Event.write strm
            (c.openQuote ++ fmt c.locales c.options ++ c.closeQuote ++ sep)] :=
  fun _ _ _ lvl =>
    match lvl with
    | .log => ⟨OutStream.stdout, rfl⟩
    | .info => ⟨OutStream.stdout, rfl⟩
    | .warn => ⟨OutStream.stdout, rfl⟩
    | .error => ⟨OutStream.stderr, rfl⟩

/-- Claim C3: construction fails if and only if a provided input violates
its shape (locales not a string, options not a key/value object, quote not
a sequence of 1 or 2 strings, separator not a string); every failure is an
`InvalidArgument`-kind exception (`TypeError`/`RangeError`), and on valid
inputs construction succeeds (the constructor emits no output event: its
result type carries no trace). -/
theorem C3_construction_validation :
    ∀ locales options quote separator : JSValue,
      exceptOk (ConsoleLocaleTimestamp.construct locales options quote separator) =
        validConstructorInputs locales options quote separator ∧
      throwsOnlyInvalidArgument
        (ConsoleLocaleTimestamp.construct locales options quote separator) = true := by
  intro l o q s
  refine ⟨?_, ConsoleLocaleTimestamp.construct_invalidArg l o q s⟩
  rw [ConsoleLocaleTimestamp.construct_ok, ConsoleLocaleTimestamp.validateLocales_ok,
    ConsoleLocaleTimestamp.validateOptions_ok, ConsoleLocaleTimestamp.validateQuote_ok,
    ConsoleLocaleTimestamp.validateSeparator_ok]
  rfl

/-- Claim C4: a valid length-1 quote sequence sets both the open quote and
the close quote to its single element, and a valid length-2 quote sequence
sets the open quote to its first element and the close quote to its second
element, for any valid remaining constructor inputs. -/
theorem C4_quote_pair_assignment :
    ∀ (l o s : JSValue) (a b : String),
      validLocalesInput l = true → validOptionsInput o = true →
      validSeparatorInput s = true →
      (∃ c, ConsoleLocaleTimestamp.construct l o (JSValue.arr [JSValue.str a]) s =
          Except.ok c ∧ c.openQuote = a ∧ c.closeQuote = a) ∧
      (∃ c, ConsoleLocaleTimestamp.construct l o
          (JSValue.arr [JSValue.str a, JSValue.str b]) s =
          Except.ok c ∧ c.openQuote = a ∧ c.closeQuote = b) := by
  intro l o s a b hl ho hs
  obtain ⟨lf, hlf⟩ := exceptOk_exists
    (by rw [ConsoleLocaleTimestamp.validateLocales_ok]; exact hl)
  obtain ⟨optf, hof⟩ := exceptOk_exists
    (by rw [ConsoleLocaleTimestamp.validateOptions_ok]; exact ho)
  obtain ⟨sf, hsf⟩ := exceptOk_exists
    (by rw [ConsoleLocaleTimestamp.validateSeparator_ok]; exact hs)
  constructor
  · refine ⟨⟨lf, optf, a, a, sf⟩, ?_, rfl, rfl⟩
    unfold ConsoleLocaleTimestamp.construct
    rw [hlf, hof, hsf,
      show ConsoleLocaleTimestamp.validateQuote (JSValue.arr [JSValue.str a]) =
        Except.ok (a, a) from rfl]
    rfl
  · refine ⟨⟨lf, optf, a, b, sf⟩, ?_, rfl, rfl⟩
    unfold ConsoleLocaleTimestamp.construct
    rw [hlf, hof, hsf,
      show ConsoleLocaleTimestamp.validateQuote
          (JSValue.arr [JSValue.str a, JSValue.str b]) = Except.ok (a, b) from rfl]
    rfl

/-- Claim C4 witness: concrete instantiation with quote sequences
containing one and two parentheses and the other inputs omitted. -/
theorem C4_quote_pair_assignment_witness :
    (∃ c, ConsoleLocaleTimestamp.construct JSValue.undef JSValue.undef
        (JSValue.arr [JSValue.str "("]) JSValue.undef =
        Except.ok c ∧ c.openQuote = "(" ∧ c.closeQuote = "(") ∧
    (∃ c, ConsoleLocaleTimestamp.construct JSValue.undef JSValue.undef
        (JSValue.arr [JSValue.str "(", JSValue.str ")"]) JSValue.undef =
        Except.ok c ∧ c.openQuote = "(" ∧ c.closeQuote = ")") :=
  C4_quote_pair_assignment JSValue.undef JSValue.undef JSValue.undef "(" ")"
    rfl rfl rfl

/-- Claim C5: `assert` with a falsy condition writes exactly one timestamp
fragment to the standard error stream and then delegates the original
arguments to the underlying assert; with a truthy condition it writes no
timestamp and still delegates the original arguments. -/
theorem C5_assert_condition_behavior :
    ∀ (c : ConsoleLocaleTimestamp) (fmt : TimeFormatter) (condition : JSValue)
      (data : List JSValue),
      c.assert fmt condition data =
        Except.ok ((if condition.truthy then ([] : List Event)
            else [Event.write OutStream.stderr
              (c.openQuote ++ fmt c.locales c.options ++ c.closeQuote ++ c.separator)]) ++
          [Event.call "assert" (condition :: data)]) := by
  intro c fmt condition data
  unfold ConsoleLocaleTimestamp.assert
  cases condition.truthy <;> rfl

/-- Claim C6: `table` emits a timestamp fragment terminated by a newline,
ignoring the configured separator, before delegating to the underlying
table operation. -/
theorem C6_table_newline_separator :
    ∀ (c : ConsoleLocaleTimestamp) (fmt : TimeFormatter)
      (tabularData properties : JSValue),
      c.table fmt tabularData properties =
        Except.ok [Event.write OutStream.stdout
            (c.openQuote ++ fmt c.locales c.options ++ c.closeQuote ++ "\n"),
          Event.call "table" [tabularData, properties]] :=
  fun _ _ _ _ => rfl

/-- Claim C7 counterexample: `debug` invoked with zero variadic payload
arguments on a default-configured instance still writes a timestamp
fragment (the first trace element is a stream write), contradicting the
claim that every variadic operation skips timestamp emission when given
zero payload arguments. -/
theorem C7_zero_arg_counterexample :
    cfgDefault.debug fmtFixed [] =
      Except.ok [Event.write OutStream.stdout "0:00:00 ",
        Event.call "debug" []] ∧
    Event.isWrite (Event.write OutStream.stdout "0:00:00 ") = true :=
  ⟨rfl, rfl⟩

/-- Claim C7 (amended): only the grouping operations `group` and
`groupCollapsed` skip timestamp emission when invoked with zero label
arguments, still delegating; with at least one label they write exactly one
timestamp first. Every other operation with variadic payload arguments
(`debug`, `log`, `info`, `warn`, `error`, `trace`, `dirxml`, `timeLog`)
emits its timestamp fragment even when invoked with zero payload
arguments, before delegating. -/
theorem C7_group_only_zero_arg_skip :
    ∀ (c : ConsoleLocaleTimestamp) (fmt : TimeFormatter),
      (c.group fmt [] = Except.ok [Event.call "group" []]) ∧
      (c.groupCollapsed fmt [] = Except.ok [Event.call "groupCollapsed" []]) ∧
      (∀ (l : JSValue) (ls : List JSValue),
        c.group fmt (l :: ls) =
          Except.ok [Event.write OutStream.stdout
              (c.openQuote ++ fmt c.locales c.options ++ c.closeQuote ++ c.separator),
            Event.call "group" (l :: ls)]) ∧
      (∀ (l : JSValue) (ls : List JSValue),
        c.groupCollapsed fmt (l :: ls) =
          Except.ok [Event.write OutStream.stdout
              (c.openQuote ++ fmt c.locales c.options ++ c.closeQuote ++ c.separator),
            Event.call "groupCollapsed" (l :: ls)]) ∧
      (c.debug fmt [] = Except.ok [Event.write OutStream.stdout
          (c.openQuote ++ fmt c.locales c.options ++ c.closeQuote ++ c.separator),
        Event.call "debug" []]) ∧
      (c.log fmt [] = Except.ok [Event.write OutStream.stdout
          (c.openQuote ++ fmt c.locales c.options ++ c.closeQuote ++ c.separator),
        Event.call "log" []]) ∧
      (c.info fmt [] = Except.ok [Event.write OutStream.stdout
          (c.openQuote ++ fmt c.locales c.options ++ c.closeQuote ++ c.separator),
        Event.call "info" []]) ∧
      (c.warn fmt [] = Except.ok [Event.write OutStream.stdout
          (c.openQuote ++ fmt c.locales c.options ++ c.closeQuote ++ c.separator),
        Event.call "warn" []]) ∧
      (c.error fmt [] = Except.ok [Event.write OutStream.stderr
          (c.openQuote ++ fmt c.locales c.options ++ c.closeQuote ++ c.separator),
        Event.call "error" []]) ∧
      (c.trace fmt [] = Except.ok [Event.write OutStream.stdout
          (c.openQuote ++ fmt c.locales c.options ++ c.closeQuote ++ c.separator),
        Event.call "trace" []]) ∧
      (c.dirxml fmt [] = Except.ok [Event.write OutStream.stdout
          (c.openQuote ++ fmt c.locales c.options ++ c.closeQuote ++ c.separator),
        Event.call "dirxml" []]) ∧
      (∀ label : JSValue,
        c.timeLog fmt label [] = Except.ok [Event.write OutStream.stdout
            (c.openQuote ++ fmt c.locales c.options ++ c.closeQuote ++ c.separator),
          Event.call "timeLog" [label]]) :=
  fun c fmt => by
    refine ⟨rfl, rfl, ?_, ?_, rfl, rfl, rfl, rfl, rfl, rfl, rfl, fun _ => rfl⟩
    · intro l ls
      simp [ConsoleLocaleTimestamp.group, ConsoleLocaleTimestamp._printTimestamp,
        ConsoleLocaleTimestamp.LOG_LEVEL_log, ConsoleLocaleTimestamp.LOG_LEVEL_info,
        ConsoleLocaleTimestamp.LOG_LEVEL_warn, ConsoleLocaleTimestamp.LOG_LEVEL_error,
        bind, Except.bind, pure, Except.pure, Nat.succ_pos]
    · intro l ls
      simp [ConsoleLocaleTimestamp.groupCollapsed, ConsoleLocaleTimestamp._printTimestamp,
        ConsoleLocaleTimestamp.LOG_LEVEL_log, ConsoleLocaleTimestamp.LOG_LEVEL_info,
        ConsoleLocaleTimestamp.LOG_LEVEL_warn, ConsoleLocaleTimestamp.LOG_LEVEL_error,
        bind, Except.bind, pure, Except.pure, Nat.succ_pos]

/-- Claim C8: whenever any of the four shape validations fails, the
constructor throws and no configuration value is produced. -/
theorem C8_no_state_on_failure :
    ∀ locales options quote separator : JSValue,
      validConstructorInputs locales options quote separator = false →
      ∃ e, ConsoleLocaleTimestamp.construct locales options quote separator =
        Except.error e := by
  intro l o q s h
  have hok : exceptOk (ConsoleLocaleTimestamp.construct l o q s) = false := by
    rw [ConsoleLocaleTimestamp.construct_ok, ConsoleLocaleTimestamp.validateLocales_ok,
      ConsoleLocaleTimestamp.validateOptions_ok, ConsoleLocaleTimestamp.validateQuote_ok,
      ConsoleLocaleTimestamp.validateSeparator_ok]
    exact h
  cases hc : ConsoleLocaleTimestamp.construct l o q s with
  | ok c =>
    rw [hc] at hok
    exact absurd hok (by simp [exceptOk])
  | error e => exact ⟨e, rfl⟩

/-- Claim C8 witness: a numeric `locales` input is invalid and the
constructor throws on it. -/
theorem C8_no_state_on_failure_witness :
    validConstructorInputs (JSValue.numVal 1) JSValue.undef JSValue.undef
      JSValue.undef = false ∧
    ∃ e, ConsoleLocaleTimestamp.construct (JSValue.numVal 1) JSValue.undef
      JSValue.undef JSValue.undef = Except.error e :=
  ⟨rfl, C8_no_state_on_failure _ _ _ _ rfl⟩

/-- Claim C9: the internal-error branch of the severity router is
unreachable through the public surface: every invocation of every public
operation, on every constructed instance and every input, succeeds (never
throws the internal "undefined logLevel" error). -/
theorem C9_internal_error_unreachable :
    ∀ (c : ConsoleLocaleTimestamp) (fmt : TimeFormatter),
      (∀ condition data, exceptOk (c.assert fmt condition data) = true) ∧
      exceptOk (c.clear fmt) = true ∧
      (∀ data, exceptOk (c.debug fmt data) = true) ∧
      (∀ data, exceptOk (c.error fmt data) = true) ∧
      (∀ data, exceptOk (c.info fmt data) = true) ∧
      (∀ data, exceptOk (c.log fmt data) = true) ∧
      (∀ tabularData properties,
        exceptOk (c.table fmt tabularData properties) = true) ∧
      (∀ data, exceptOk (c.trace fmt data) = true) ∧
      (∀ data, exceptOk (c.warn fmt data) = true) ∧
      (∀ item opts, exceptOk (c.dir fmt item opts) = true) ∧
      (∀ data, exceptOk (c.dirxml fmt data) = true) ∧
      (∀ label, exceptOk (c.count fmt label) = true) ∧
      (∀ label, exceptOk (c.countReset fmt label) = true) ∧
      (∀ label, exceptOk (c.group fmt label) = true) ∧
      (∀ label, exceptOk (c.groupCollapsed fmt label) = true) ∧
      exceptOk (c.groupEnd fmt) = true ∧
      (∀ label, exceptOk (c.time fmt label) = true) ∧
      (∀ label data, exceptOk (c.timeLog fmt label data) = true) ∧
      (∀ label, exceptOk (c.timeEnd fmt label) = true) := by
  intro c fmt
  refine ⟨?_, rfl, fun _ => rfl, fun _ => rfl, fun _ => rfl, fun _ => rfl,
    fun _ _ => rfl, fun _ => rfl, fun _ => rfl, fun _ _ => rfl, fun _ => rfl,
    fun _ => rfl, fun _ => rfl, ?_, ?_, rfl, fun _ => rfl, fun _ _ => rfl,
    fun _ => rfl⟩
  · intro condition data
    unfold ConsoleLocaleTimestamp.assert
    cases condition.truthy <;> rfl
  · intro label
    cases label with
    | nil => rfl
    | cons x xs =>
      simp [ConsoleLocaleTimestamp.group, ConsoleLocaleTimestamp._printTimestamp,
        ConsoleLocaleTimestamp.LOG_LEVEL_log, exceptOk, bind, Except.bind,
        pure, Except.pure, Nat.succ_pos]
  · intro label
    cases label with
    | nil => rfl
    | cons x xs =>
      simp [ConsoleLocaleTimestamp.groupCollapsed, ConsoleLocaleTimestamp._printTimestamp,
        ConsoleLocaleTimestamp.LOG_LEVEL_log, exceptOk, bind, Except.bind,
        pure, Except.pure, Nat.succ_pos]

/-- Claim C10: a quote sequence of length 2 whose second element is
explicitly `undefined` — permitted by the declared parameter type
`[string, string?]` — is rejected with the element-type `TypeError`, even
though omitting the second element entirely (a length-1 sequence) is
accepted. -/
theorem C10_explicit_undefined_quote_element :
    ConsoleLocaleTimestamp.construct JSValue.undef JSValue.undef
        (JSValue.arr [JSValue.str "(", JSValue.undef]) JSValue.undef =
      Except.error (JSError.typeError
        "The contents of the Array of arguments `quote` must be a String.") ∧
    ∃ c, ConsoleLocaleTimestamp.construct JSValue.undef JSValue.undef
        (JSValue.arr [JSValue.str "("]) JSValue.undef = Except.ok c :=
  ⟨rfl, ⟨_, rfl⟩⟩
